import Mathlib

/-!
Verification development for `telegram_scraper.py` (Telegram Group File
Scraper).  The Python source is shallowly embedded: pure functions become
Lean functions, the mutable `self.files` Collector becomes explicit list
passing, and the driver's control flow (try/except/finally) becomes a
function from an environment of external outcomes to a result record.
Python `str`-or-`None` values are modelled as `Option String`;
`hasattr`-probed attributes are modelled as `Option (Option String)`
(outer layer: attribute present?, inner layer: value, `none` = Python
`None`).  Machine floats only occur in `file_size_mb`; sizes are modelled
as rationals with decimal half-even rounding, and no claim depends on
binary float representation.
-/

namespace TelegramScraper

/-- Embeds Python `str.lower` on a single character (ASCII case mapping,
which is all the source's extension lists exercise). -/
def pyCharLower (c : Char) : Char :=
  if c.isUpper then Char.ofNat (c.toNat + 32) else c

/-- Embeds Python `str.lower`. -/
def pyLower (s : String) : String :=
  String.mk (s.data.map pyCharLower)

/-- Character-list core of Python `str.startswith`. -/
def isPre : List Char → List Char → Bool
  | [], _ => true
  | _ :: _, [] => false
  | a :: as, b :: bs => a == b && isPre as bs

/-- Character-list core of Python `str.endswith`. -/
def isSuf (p l : List Char) : Bool := isPre p.reverse l.reverse

/-- Embeds Python `filename.endswith(ext)`. -/
def pyEndsWith (s suffix : String) : Bool := isSuf suffix.data s.data

/-- Embeds Python `s.startswith(p)`. -/
def pyStartsWith (s p : String) : Bool := isPre p.data s.data

/-- Python truthiness of a `str`-or-`None` value: `None` and `""` are falsy. -/
def pyTruthyStr (v : Option String) : Bool :=
  match v with
  | none => false
  | some s => !(s = "")

/-- Python rendering of a `str`-or-`None` value inside an f-string
(`None` prints as `"None"`). -/
def pyStrInterp (v : Option String) : String :=
  match v with
  | none => "None"
  | some s => s

/-- Embeds Python `v or d` for a `str`-or-`None` value `v`. -/
def pyOrStr (v : Option String) (d : String) : String :=
  if pyTruthyStr v then pyStrInterp v else d

/-- Structural worker for Python `str.replace` with a nonempty pattern:
scans left to right, replacing nonoverlapping occurrences; `skip` counts
characters still owned by an already-replaced occurrence. -/
def replaceGo (pat rep : List Char) (skip : Nat) : List Char → List Char
  | [] => []
  | c :: rest =>
    match skip with
    | s + 1 => replaceGo pat rep s rest
    | 0 =>
      if isPre pat (c :: rest) then
        rep ++ replaceGo pat rep (pat.length - 1) rest
      else
        c :: replaceGo pat rep 0 rest

/-- Embeds Python `s.replace(pat, rep)` (all nonoverlapping occurrences,
left to right; an empty pattern inserts `rep` at every boundary). -/
def pyReplace (s pat rep : String) : String :=
  match pat.data with
  | [] => String.mk (rep.data ++ (s.data.map (fun c => c :: rep.data)).flatten)
  | _ :: _ => String.mk (replaceGo pat.data rep.data 0 s.data)

/-- Decides that no occurrence of `pat` starts inside `base` when the text
is `base ++ pat` (used to characterise `str.replace` on a clean input). -/
def noMatchIn (pat : List Char) : List Char → Bool
  | [] => true
  | c :: rest => !(isPre pat ((c :: rest) ++ pat)) && noMatchIn pat rest

/-- Python `rfind` of a single character: index of the last occurrence,
`-1` when absent. -/
def rfindChar (l : List Char) (c : Char) : Int :=
  match l.reverse.findIdx? (fun x => x == c) with
  | none => -1
  | some j => (l.length : Int) - 1 - j

/-- Embeds `os.path.splitext(p)[1]` (posixpath): the extension starting at
the last dot after the last slash, provided some earlier character of the
basename is not a dot. -/
def splitextExt (p : String) : String :=
  let l := p.data
  let sepIndex := rfindChar l '/'
  let dotIndex := rfindChar l '.'
  if sepIndex < dotIndex then
    let start := (sepIndex + 1).toNat
    let stop := dotIndex.toNat
    if ((l.drop start).take (stop - start)).any (fun ch => !(ch = '.')) then
      String.mk (l.drop stop)
    else ""
  else ""

/-- Decimal round-half-to-even on a rational (the rounding mode of Python's
`round`; binary float representation is out of scope). -/
def roundHalfEven (q : ℚ) : ℤ :=
  let f := ⌊q⌋
  let r := q - f
  if r < 1 / 2 then f else if 1 / 2 < r then f + 1 else if Even f then f else f + 1

/-- Embeds Python `round(q, 2)`. -/
def round2 (q : ℚ) : ℚ := (roundHalfEven (q * 100) : ℚ) / 100

/-- Zero-padded two-digit rendering used by `strftime`. -/
def pad2 (n : Nat) : String := if n < 10 then "0" ++ toString n else toString n

/-- Zero-padded four-digit year rendering used by `strftime`. -/
def pad4 (n : Nat) : String :=
  if n < 10 then "000" ++ toString n
  else if n < 100 then "00" ++ toString n
  else if n < 1000 then "0" ++ toString n
  else toString n

/-- Message timestamp (wall-clock fields only; time zones are owned by the
external client library). -/
structure Timestamp where
  year : Nat
  month : Nat
  day : Nat
  hour : Nat
  minute : Nat
  second : Nat
deriving DecidableEq

/-- Embeds `message.date.strftime("%Y-%m-%d %H:%M:%S")`. -/
def strftime_ymd_hms (t : Timestamp) : String :=
  pad4 t.year ++ "-" ++ pad2 t.month ++ "-" ++ pad2 t.day ++ " " ++
    pad2 t.hour ++ ":" ++ pad2 t.minute ++ ":" ++ pad2 t.second

/-- Sender object as probed by `_get_sender_name`: each field is an
attribute that may be absent (`hasattr` false) or present with a
`str`-or-`None` value. -/
structure Sender where
  first_name : Option (Option String)
  last_name : Option (Option String)
  username : Option (Option String)
deriving DecidableEq

/-- Document attribute list entry (`DocumentAttributeFilename` or any
other attribute kind). -/
inductive DocAttribute where
  | documentAttributeFilename (file_name : String)
  | otherAttribute
deriving DecidableEq

/-- Telegram document payload: attribute list, optional `name` attribute
(`hasattr(doc, "name")`), and byte size (`None` or a count). -/
structure TLDocument where
  attributes : List DocAttribute
  name : Option (Option String)
  size : Option Nat
deriving DecidableEq

/-- Message media: a generic document wrapper or any other media kind. -/
inductive MessageMedia where
  | messageMediaDocument (document : TLDocument)
  | otherMedia
deriving DecidableEq

/-- Message object with the fields the scraper reads. -/
structure Message where
  media : Option MessageMedia
  id : Int
  date : Option Timestamp
  sender : Option Sender
  text : Option String
deriving DecidableEq

/-- Channel identifier as passed to `scrape_group`: a string (username or
URL) or a numeric id. -/
inductive GroupIdent where
  | strId (s : String)
  | intId (n : Int)
deriving DecidableEq

/-- Resolved channel entity (only `title` is read). -/
structure Entity where
  title : String
deriving DecidableEq

/-- One row of the Collector (`self.files`): the `sender` value may be
Python `None` when `_get_sender_name` returns a sender's null first name. -/
structure FileRecord where
  filename : String
  message_id : Int
  date : String
  sender : Option String
  caption : String
  file_size_mb : ℚ
  message_url : String
deriving DecidableEq

/-- Default extension list of `is_target_file` (source lines 69-76). -/
def defaultFileTypes : List String :=
  [".ex4", ".ex5", ".mq4", ".mq5",
   ".zip", ".rar", ".7z",
   ".pdf", ".doc", ".docx", ".txt",
   ".jpg", ".jpeg", ".png", ".gif",
   ".mp4", ".avi", ".mkv",
   ".py", ".js", ".html"]

/-- Embeds `TelegramFileScraper.is_target_file` (source lines 62-79):
reject falsy filenames, then case-insensitive suffix test of the
lower-cased filename against each allowed extension. -/
def is_target_file (filename : Option String) (file_types : Option (List String)) : Bool :=
  match filename with
  | none => false
  | some f =>
    if f = "" then false
    else
      let ft := match file_types with
        | none => defaultFileTypes
        | some l => l
      let filename_lower := pyLower f
      ft.any (fun ext => pyEndsWith filename_lower ext)

/-- Embeds `TelegramFileScraper._get_sender_name` (source lines 135-148).
Attribute presence is probed with `hasattr`, so a present-but-null or
present-but-empty `first_name` is returned as is; the result is the raw
Python value (`none` = Python `None`). -/
def get_sender_name (sender : Option Sender) : Option String :=
  match sender with
  | none => some "Unknown"
  | some s =>
    match s.first_name with
    | some fn =>
      match s.last_name with
      | some ln =>
        if pyTruthyStr ln then some (pyStrInterp fn ++ " " ++ pyStrInterp ln)
        else fn
      | none => fn
    | none =>
      match s.username with
      | some un =>
        if pyTruthyStr un then some ("@" ++ pyStrInterp un)
        else some "Unknown"
      | none => some "Unknown"

/-- Filename from the document's attribute list: first
`DocumentAttributeFilename` wins (the loop breaks), else `None`
(source lines 107-113). -/
def filenameFromAttributes : List DocAttribute → Option String
  | [] => none
  | DocAttribute.documentAttributeFilename fn :: _ => some fn
  | DocAttribute.otherAttribute :: rest => filenameFromAttributes rest

/-- Embeds the filename fallback (source lines 115-117): when the
attribute-derived filename is falsy and the document has a `name`
attribute, that attribute's value is used. -/
def resolveFilename (doc : TLDocument) : Option String :=
  let filename := filenameFromAttributes doc.attributes
  if pyTruthyStr filename = false then
    match doc.name with
    | some v => v
    | none => filename
  else filename

/-- Embeds the `message_url` expression (source line 127): a deep link for
a string identifier not starting with `http`, else the message id as a
plain string. -/
def message_url_of (group_identifier : GroupIdent) (message_id : Int) : String :=
  match group_identifier with
  | GroupIdent.strId s =>
    if pyStartsWith s "http" = false then
      "https://t.me/" ++ s ++ "/" ++ toString message_id
    else toString message_id
  | GroupIdent.intId _ => toString message_id

/-- Embeds the date expression (source line 123):
`message.date.strftime(...) if message.date else ""`. -/
def formatDate (d : Option Timestamp) : String :=
  match d with
  | some t => strftime_ymd_hms t
  | none => ""

/-- Embeds the size expression (source line 126):
`round(doc.size / (1024 * 1024), 2) if doc.size else 0`. -/
def sizeMb (size : Option Nat) : ℚ :=
  match size with
  | some n => if n = 0 then 0 else round2 ((n : ℚ) / (1024 * 1024))
  | none => 0

/-- Embeds the per-message body of the scrape loop (source lines 104-131):
zero or one `FileRecord` per message. -/
def processMessage (group_identifier : GroupIdent) (file_types : Option (List String))
    (message : Message) : Option FileRecord :=
  match message.media with
  | some (MessageMedia.messageMediaDocument doc) =>
    let filename := resolveFilename doc
    if pyTruthyStr filename = true ∧ is_target_file filename file_types = true then
      some
        { filename := pyStrInterp filename
          message_id := message.id
          date := formatDate message.date
          sender := get_sender_name message.sender
          caption := (pyOrStr message.text "").take 500
          file_size_mb := sizeMb doc.size
          message_url := message_url_of group_identifier message.id }
    else none
  | some MessageMedia.otherMedia => none
  | none => none

/-- One step of `iter_messages`: the external stream either yields a
message or raises (a mid-iteration failure propagates, source line 103). -/
def runIteration (group_identifier : GroupIdent) (file_types : Option (List String)) :
    List (Except String Message) → List FileRecord × Option String
  | [] => ([], none)
  | Except.error e :: _ => ([], some e)
  | Except.ok m :: rest =>
    match processMessage group_identifier file_types m with
    | some r =>
      let p := runIteration group_identifier file_types rest
      (r :: p.1, p.2)
    | none => runIteration group_identifier file_types rest

/-- Result of `scrape_group`: the Collector after the call, the exception
propagating out of the message loop if any, and the resolution error
reported by the `except` handler if any. -/
structure ScrapeResult where
  files : List FileRecord
  raised : Option String
  reported : Option String
deriving DecidableEq

/-- Embeds `TelegramFileScraper.scrape_group` (source lines 81-133):
`files0` is the Collector (`self.files`) before the call, `resolution`
the outcome of `get_entity`, `history` the channel's message stream
(newest first), truncated by `limit`. -/
def scrape_group (files0 : List FileRecord) (resolution : Except String Entity)
    (history : List (Except String Message)) (group_identifier : GroupIdent)
    (limit : Nat) (file_types : Option (List String)) : ScrapeResult :=
  match resolution with
  | Except.error e => { files := files0, raised := none, reported := some e }
  | Except.ok _entity =>
    let p := runIteration group_identifier file_types (history.take limit)
    { files := files0 ++ p.1, raised := p.2, reported := none }

/-- CSV column order (source line 157). -/
def csvFieldnames : List String :=
  ["filename", "message_id", "date", "sender", "caption", "file_size_mb", "message_url"]

/-- Outcome of an exporter: either the empty-Collector warning (nothing
written, normal return) or a file written at `path` holding exactly the
given records, serialised by the Python standard library (external to
this repository). -/
inductive ExportResult where
  | warnedNoFiles
  | wrote (path : String) (payload : List FileRecord)
deriving DecidableEq

/-- Embeds `TelegramFileScraper.export_csv` (source lines 150-163). -/
def export_csv (files : List FileRecord) (output_path : String) : ExportResult :=
  if files.isEmpty then ExportResult.warnedNoFiles
  else ExportResult.wrote output_path files

/-- Embeds `TelegramFileScraper.export_json` (source lines 165-174). -/
def export_json (files : List FileRecord) (output_path : String) : ExportResult :=
  if files.isEmpty then ExportResult.warnedNoFiles
  else ExportResult.wrote output_path files

/-- One fold step of the per-extension tally: Python dict update
`extensions[ext] = extensions.get(ext, 0) + 1`, insertion order kept. -/
def addTally (acc : List (String × Nat)) (k : String) : List (String × Nat) :=
  if acc.any (fun p => p.1 = k) then
    acc.map (fun p => if p.1 = k then (p.1, p.2 + 1) else p)
  else acc ++ [(k, 1)]

/-- Per-extension counts in first-seen order (source lines 186-192). -/
def tallyExtensions (files : List FileRecord) : List (String × Nat) :=
  files.foldl (fun acc f => addTally acc (pyLower (splitextExt f.filename))) []

/-- Embeds `sorted(self.files, key=lambda x: x["file_size_mb"], reverse=True)[:10]`
(source line 203).  Python's sort is stable; descending order with ties in
original order is a stable merge sort under the reversed comparison. -/
def top10Largest (files : List FileRecord) : List FileRecord :=
  (files.mergeSort (fun a b => decide (b.file_size_mb ≤ a.file_size_mb))).take 10

/-- Aggregates printed by `print_summary`. -/
structure Summary where
  total_files : Nat
  total_size_mb : ℚ
  by_extension : List (String × Nat)
  top_10_largest : List FileRecord
deriving DecidableEq

/-- Embeds `TelegramFileScraper.print_summary` (source lines 176-207).
The first component is the printed aggregate (`none` when the Collector
is empty and the method returns early); the second component is the
Collector after the call (`sorted` copies, so it is unchanged). -/
def print_summary (files : List FileRecord) : Option Summary × List FileRecord :=
  if files.isEmpty then (none, files)
  else
    (some
      { total_files := files.length
        total_size_mb := round2 (files.foldl (fun acc f => acc + f.file_size_mb) 0)
        by_extension :=
          ((tallyExtensions files).mergeSort (fun a b => decide (b.2 ≤ a.2))).take 10
        top_10_largest := top10Largest files },
     files)

/-- Credentials loaded from `config.py` (`None` when the import fails). -/
structure Config where
  api_id : Option Int
  api_hash : Option String
  phone_number : Option String
deriving DecidableEq

/-- Python truthiness of an `int`-or-`None` value. -/
def pyTruthyInt (v : Option Int) : Bool :=
  match v with
  | none => false
  | some n => !(n = 0)

/-- Embeds the constructor guard (source lines 44-45): construction
succeeds iff `API_ID` and `API_HASH` are both truthy. -/
def constructionOk (cfg : Config) : Bool :=
  pyTruthyInt cfg.api_id && pyTruthyStr cfg.api_hash

/-- Parsed command-line arguments (source lines 228-239).  `group` is
always a string here: argparse yields `str`. -/
structure CliArgs where
  group : String
  limit : Nat
  output : String
  types : Option (List String)
  json : Bool
deriving DecidableEq

/-- Embeds `args.output.replace(".csv", ".json")` (source line 252). -/
def mainJsonPath (output : String) : String :=
  pyReplace output ".csv" ".json"

/-- External outcomes the driver is exposed to in one run. -/
structure DriverEnv where
  config : Config
  connectRaises : Bool
  resolution : Except String Entity
  history : List (Except String Message)
  csvWriteRaises : Bool
  jsonWriteRaises : Bool

/-- Observable outcome of one driver run: whether `scraper.close()` ran
(the disconnect), the exception escaping `main` if any, the error printed
by the `except` handler if any, and the export outcomes if reached. -/
structure DriverResult where
  closeCalled : Bool
  uncaught : Option String
  reported : Option String
  csvExport : Option ExportResult
  jsonExport : Option ExportResult
deriving DecidableEq

/-- Embeds `main` (source lines 215-261).  The `try` block constructs the
scraper, connects, scrapes, exports and prints the summary; the `except`
block reports any exception; the `finally` block runs `scraper.close()`.
When construction itself raises, the local `scraper` was never bound, so
the `finally` block raises `NameError` and no disconnect happens. -/
def mainRun (env : DriverEnv) (args : CliArgs) : DriverResult :=
  if constructionOk env.config = false then
    { closeCalled := false
      uncaught := some "NameError: name 'scraper' is not defined"
      reported := some "API credentials not configured. Check config.py"
      csvExport := none
      jsonExport := none }
  else if env.connectRaises then
    { closeCalled := true, uncaught := none, reported := some "connection error"
      csvExport := none, jsonExport := none }
  else
    let s := scrape_group [] env.resolution env.history (GroupIdent.strId args.group)
      args.limit args.types
    match s.raised with
    | some e =>
      { closeCalled := true, uncaught := none, reported := some e
        csvExport := none, jsonExport := none }
    | none =>
      let csvRes := export_csv s.files args.output
      if env.csvWriteRaises ∧ s.files ≠ [] then
        { closeCalled := true, uncaught := none, reported := some "csv write error"
          csvExport := none, jsonExport := none }
      else if args.json then
        if env.jsonWriteRaises ∧ s.files ≠ [] then
          { closeCalled := true, uncaught := none, reported := some "json write error"
            csvExport := some csvRes, jsonExport := none }
        else
          { closeCalled := true, uncaught := none, reported := none
            csvExport := some csvRes
            jsonExport := some (export_json s.files (mainJsonPath args.output)) }
      else
        { closeCalled := true, uncaught := none, reported := none
          csvExport := some csvRes, jsonExport := none }

/-- Driver environment with `config.py` missing (`API_ID`/`API_HASH` are
`None`), everything else healthy. -/
def envNoConfig : DriverEnv :=
  { config := { api_id := none, api_hash := none, phone_number := none }
    connectRaises := false
    resolution := Except.ok { title := "g" }
    history := []
    csvWriteRaises := false
    jsonWriteRaises := false }

/-- Driver environment with credentials configured but a failing
connection step. -/
def envConnectFail : DriverEnv :=
  { config := { api_id := some 1, api_hash := some "h", phone_number := some "p" }
    connectRaises := true
    resolution := Except.ok { title := "g" }
    history := []
    csvWriteRaises := false
    jsonWriteRaises := false }

/-- Healthy driver environment whose scrape yields no records. -/
def envHealthyEmpty : DriverEnv :=
  { config := { api_id := some 1, api_hash := some "h", phone_number := some "p" }
    connectRaises := false
    resolution := Except.ok { title := "g" }
    history := []
    csvWriteRaises := false
    jsonWriteRaises := false }

/-- Default command-line arguments used by concrete driver runs. -/
def argsDefault : CliArgs :=
  { group := "mychannel", limit := 10000, output := "scraped_files.csv"
    types := none, json := false }

/-- Healthy driver environment for the empty-Collector export run. -/
def envEmptyRun : DriverEnv :=
  { config := { api_id := some 1, api_hash := some "h", phone_number := some "p" }
    connectRaises := false
    resolution := Except.ok { title := "g" }
    history := []
    csvWriteRaises := false
    jsonWriteRaises := false }

/-- Arguments for the empty-Collector export run (JSON flag on). -/
def argsEmptyRun : CliArgs :=
  { group := "mychannel", limit := 10000, output := "scraped_files.csv"
    types := none, json := true }

/-- Concrete record used by the nonempty-export witness. -/
def demoRec6 : FileRecord :=
  { filename := "a.zip", message_id := 1, date := "", sender := some "Unknown"
    caption := "", file_size_mb := 0, message_url := "1" }

/-- Concrete records used by the summary witness. -/
def demoTopA : FileRecord :=
  { filename := "a.zip", message_id := 1, date := "", sender := some "Unknown"
    caption := "", file_size_mb := 2, message_url := "1" }

/-- Second concrete record used by the summary witness. -/
def demoTopB : FileRecord :=
  { filename := "b.pdf", message_id := 2, date := "", sender := some "Unknown"
    caption := "", file_size_mb := 5, message_url := "2" }

/-! Helper lemmas (shared; none of these is a claim theorem). -/

/-- Lower-casing never produces an ASCII upper-case letter. -/
lemma pyCharLower_not_upper (c : Char) : (pyCharLower c).isUpper = false := by
  unfold pyCharLower
  by_cases h : c.isUpper = true
  · simp only [h, if_true]
    simp only [Char.isUpper, Bool.and_eq_true, decide_eq_true_eq] at h
    obtain ⟨h1, h2⟩ := h
    have hn2 : c.toNat ≤ 90 := by
      simpa [UInt32.le_def, BitVec.le_def, Char.toNat, UInt32.toNat] using h2
    have hn1 : 65 ≤ c.toNat := by
      simpa [UInt32.le_def, BitVec.le_def, Char.toNat, UInt32.toNat] using h1
    have hvalid : Char.isValidCharNat (c.toNat + 32) := by
      unfold Char.isValidCharNat
      left; omega
    have htn : (Char.ofNat (c.toNat + 32)).toNat = c.toNat + 32 := by
      rw [Char.ofNat, dif_pos hvalid]
      simp [Char.ofNatAux, Char.toNat, UInt32.toNat, UInt32.ofNat']
    have hgt : ¬ ((Char.ofNat (c.toNat + 32)).val ≤ 90) := by
      intro hb
      have : (Char.ofNat (c.toNat + 32)).toNat ≤ 90 := by
        simpa [UInt32.le_def, BitVec.le_def, Char.toNat, UInt32.toNat] using hb
      omega
    simp [Char.isUpper, hgt]
  · simp only [Bool.not_eq_true] at h
    simp [h]

/-- The boolean prefix test agrees with list-prefix existence. -/
lemma isPre_iff (p l : List Char) : isPre p l = true ↔ ∃ t, p ++ t = l := by
  induction p generalizing l with
  | nil => simp [isPre]
  | cons a as ih =>
    cases l with
    | nil => simp [isPre]
    | cons b bs =>
      simp only [isPre, Bool.and_eq_true, beq_iff_eq, ih, List.cons_append,
        List.cons.injEq]
      constructor
      · rintro ⟨rfl, t, rfl⟩; exact ⟨t, rfl, rfl⟩
      · rintro ⟨t, rfl, rfl⟩; exact ⟨rfl, t, rfl⟩

/-- The boolean suffix test agrees with `List.IsSuffix`. -/
lemma isSuf_iff (p l : List Char) : isSuf p l = true ↔ p <:+ l := by
  unfold isSuf
  rw [isPre_iff]
  constructor
  · rintro ⟨t, ht⟩
    refine ⟨t.reverse, ?_⟩
    have := congrArg List.reverse ht
    simpa using this
  · rintro ⟨t, rfl⟩
    exact ⟨t.reverse, by simp⟩

/-- Two boolean-suffix facts about the same list transfer to each other;
used to refute an impossible pair of suffixes. -/
lemma suffix_clash {L p q : List Char} (hp : isSuf p L = true) (hq : isSuf q L = true)
    (hlen : p.length ≤ q.length) (hno : isSuf p q = false) : False := by
  have h := List.suffix_of_suffix_length_le (isSuf_iff p L |>.mp hp)
    (isSuf_iff q L |>.mp hq) hlen
  rw [← isSuf_iff] at h
  rw [hno] at h
  exact Bool.false_ne_true h

/-- A string with empty character data is the empty string. -/
lemma data_eq_nil_iff (s : String) : s.data = [] ↔ s = "" := by
  constructor
  · intro h; cases s; simp_all
  · intro h; rw [h]

/-- A prefix test always succeeds on the pattern itself followed by
anything. -/
lemma isPre_self_append (l t : List Char) : isPre l (l ++ t) = true := by
  induction l with
  | nil => rfl
  | cons c cs ih => simp [isPre, ih]

/-- With `skip` equal to the list length, the replace worker consumes
everything. -/
lemma replaceGo_skip_all (pat rep : List Char) :
    ∀ l : List Char, replaceGo pat rep l.length l = [] := by
  intro l
  induction l with
  | nil => rfl
  | cons c cs ih => simpa [replaceGo] using ih

/-- When no occurrence of the (nonempty) pattern starts inside `base`,
replacing in `base ++ pat` rewrites exactly the final occurrence. -/
lemma replaceGo_boundary (pat rep : List Char) (hp : pat ≠ []) :
    ∀ base, noMatchIn pat base = true → replaceGo pat rep 0 (base ++ pat) = base ++ rep := by
  intro base
  induction base with
  | nil =>
    intro _
    obtain ⟨c, cs, rfl⟩ : ∃ c cs, pat = c :: cs := by
      cases pat with
      | nil => exact absurd rfl hp
      | cons c cs => exact ⟨c, cs, rfl⟩
    have hpre : isPre (c :: cs) (c :: cs) = true := by
      have := isPre_self_append (c :: cs) []
      simpa using this
    simp [replaceGo, hpre, replaceGo_skip_all (c :: cs) rep cs]
  | cons b bs ih =>
    intro hnm
    simp only [noMatchIn, Bool.and_eq_true, Bool.not_eq_true'] at hnm
    have hpre : isPre pat (b :: (bs ++ pat)) = false := hnm.1
    simp [replaceGo, hpre]
    exact ih hnm.2

/-- A stable merge sort does not reorder a class of elements that are
mutually tied under the comparison. -/
lemma filter_mergeSort_tied {α : Type} (le : α → α → Bool)
    (htrans : ∀ a b c, le a b = true → le b c = true → le a c = true)
    (htotal : ∀ a b, (le a b || le b a) = true)
    (p : α → Bool) (hp : ∀ x y, p x = true → p y = true → le x y = true)
    (l : List α) : (l.mergeSort le).filter p = l.filter p := by
  have h1 : (l.filter p).Sublist l := List.filter_sublist l
  have hpw : List.Pairwise (fun a b => le a b = true) (l.filter p) := by
    apply List.pairwise_of_forall_mem_list
    intro a ha b hb
    exact hp a b (List.mem_filter.mp ha).2 (List.mem_filter.mp hb).2
  have h2 : (l.filter p).Sublist (l.mergeSort le) :=
    List.sublist_mergeSort htrans htotal hpw h1
  have hself : (l.filter p).filter p = l.filter p := by
    apply List.filter_eq_self.mpr
    intro a ha
    exact (List.mem_filter.mp ha).2
  have h3 : (l.filter p).Sublist ((l.mergeSort le).filter p) := by
    have := h2.filter p
    rwa [hself] at this
  have hlen : ((l.mergeSort le).filter p).length = (l.filter p).length :=
    ((List.mergeSort_perm l le).filter p).length_eq
  exact (h3.eq_of_length hlen.symm).symm

/-- A record emitted by the scrape loop carries the URL computed by the
`message_url` expression from its own message id. -/
lemma processMessage_url (gid : GroupIdent) (ft : Option (List String))
    (msg : Message) (r : FileRecord) (h : processMessage gid ft msg = some r) :
    r.message_url = message_url_of gid r.message_id := by
  unfold processMessage at h
  split at h
  · dsimp only [] at h
    split at h
    · cases h; rfl
    · exact absurd h (by simp)
  · exact absurd h (by simp)
  · exact absurd h (by simp)

/-! Claim theorems. -/

/-- C1 (counterexample): the claim says sender resolution never returns an
empty or null name and that a sender without a first name but with a
non-empty username resolves to `"@" + username`.  A sender whose
`first_name` attribute is present but empty resolves to the empty string
(not `"@bob"`), and a sender whose `first_name` attribute is present but
null resolves to Python `None`. -/
theorem c1_sender_resolution_cex :
    get_sender_name (some { first_name := some (some ""), last_name := none
                            username := some (some "bob") }) = some ""
    ∧ get_sender_name (some { first_name := some none, last_name := none
                              username := none }) = none
    ∧ (some "" : Option String) ≠ some ("@" ++ "bob") := by
  exact ⟨rfl, rfl, by decide⟩

/-- C1 (amended): sender resolution follows the stated priority with
attribute presence (not truthiness) deciding the first-name branch: no
sender gives `"Unknown"`; a present `first_name` attribute gives its raw
value, with `" " + last_name` appended when a `last_name` attribute is
present and non-empty; otherwise a present non-empty `username` gives
`"@" + username`; otherwise `"Unknown"`.  The function is total but may
return an empty or null name when the `first_name` attribute holds an
empty or null value. -/
theorem c1_sender_resolution_amended :
    get_sender_name none = some "Unknown"
    ∧ (∀ (s : Sender) (fn ln : Option String), s.first_name = some fn →
        s.last_name = some ln → pyTruthyStr ln = true →
        get_sender_name (some s) = some (pyStrInterp fn ++ " " ++ pyStrInterp ln))
    ∧ (∀ (s : Sender) (fn : Option String), s.first_name = some fn →
        (s.last_name = none ∨ ∃ ln, s.last_name = some ln ∧ pyTruthyStr ln = false) →
        get_sender_name (some s) = fn)
    ∧ (∀ (s : Sender) (un : Option String), s.first_name = none →
        s.username = some un → pyTruthyStr un = true →
        get_sender_name (some s) = some ("@" ++ pyStrInterp un))
    ∧ (∀ s : Sender, s.first_name = none →
        (s.username = none ∨ ∃ un, s.username = some un ∧ pyTruthyStr un = false) →
        get_sender_name (some s) = some "Unknown") := by
  refine ⟨rfl, ?_, ?_, ?_, ?_⟩
  · intro s fn ln h1 h2 h3
    simp [get_sender_name, h1, h2, h3]
  · intro s fn h1 h2
    rcases h2 with h2 | ⟨ln, h2, h3⟩
    · simp [get_sender_name, h1, h2]
    · simp [get_sender_name, h1, h2, h3]
  · intro s un h1 h2 h3
    simp [get_sender_name, h1, h2, h3]
  · intro s h1 h2
    rcases h2 with h2 | ⟨un, h2, h3⟩
    · simp [get_sender_name, h1, h2]
    · simp [get_sender_name, h1, h2, h3]

/-- C1 (witness): the amended priority evaluated on a sender carrying a
first and last name. -/
theorem c1_sender_resolution_witness :
    pyTruthyStr (some "Last") = true
    ∧ get_sender_name (some { first_name := some (some "First")
                              last_name := some (some "Last")
                              username := none }) = some "First Last" := by
  refine ⟨by decide, ?_⟩
  have h := c1_sender_resolution_amended.2.1
    { first_name := some (some "First"), last_name := some (some "Last"), username := none }
    (some "First") (some "Last") rfl rfl (by decide)
  simpa using h

/-- C2 (code bug, evaluated): with `config.py` missing, `main` never binds
`scraper`, so the `finally` block raises `NameError` and the disconnect is
skipped, while on a connection failure or a healthy run the disconnect
does happen. -/
theorem c2_driver_cleanup_bug_eval :
    (mainRun envNoConfig argsDefault).closeCalled = false
    ∧ (mainRun envNoConfig argsDefault).uncaught ≠ none
    ∧ (mainRun envConnectFail argsDefault).closeCalled = true
    ∧ (mainRun envHealthyEmpty argsDefault).closeCalled = true := by
  refine ⟨rfl, by decide, rfl, ?_⟩
  rfl

/-- C3: when `get_entity` fails, `scrape_group` reports the error,
returns without raising, and leaves the Collector exactly as it was. -/
theorem c3_resolution_failure_leaves_collector :
    ∀ (files0 : List FileRecord) (history : List (Except String Message))
      (gid : GroupIdent) (limit : Nat) (ft : Option (List String)) (e : String),
      (scrape_group files0 (Except.error e) history gid limit ft).files = files0
      ∧ (scrape_group files0 (Except.error e) history gid limit ft).raised = none
      ∧ (scrape_group files0 (Except.error e) history gid limit ft).reported = some e := by
  intro files0 history gid limit ft e
  exact ⟨rfl, rfl, rfl⟩

/-- C4: the classifier rejects an absent or empty filename, and otherwise
accepts exactly when the lower-cased filename ends with some extension of
the supplied set (default set when none is supplied). -/
theorem c4_classifier_characterization :
    (∀ ft, is_target_file none ft = false)
    ∧ (∀ ft, is_target_file (some "") ft = false)
    ∧ (∀ (f : String) (ft : Option (List String)), f ≠ "" →
        (is_target_file (some f) ft = true ↔
          ∃ ext ∈ (match ft with | none => defaultFileTypes | some l => l),
            pyEndsWith (pyLower f) ext = true)) := by
  refine ⟨fun _ => rfl, fun ft => by simp [is_target_file], ?_⟩
  intro f ft hf
  simp [is_target_file, hf, List.any_eq_true]

/-- C4 (witness): the characterization evaluated at `"a.zip"` with the
default set. -/
theorem c4_classifier_witness :
    ("a.zip" : String) ≠ ""
    ∧ (is_target_file (some "a.zip") none = true ↔
        ∃ ext ∈ defaultFileTypes, pyEndsWith (pyLower "a.zip") ext = true) := by
  exact ⟨by decide, c4_classifier_characterization.2.2 "a.zip" none (by decide)⟩

/-- C5: every record accepted by the scrape loop carries the URL built by
the `message_url` expression, which yields `https://t.me/<id>/<msgid>` for
a string identifier not starting with `http` and the plain message id
otherwise (e.g. 42 under `mychannel` versus `https://t.me/mychannel`). -/
theorem c5_message_url :
    (∀ (gid : GroupIdent) (ft : Option (List String))
       (history : List (Except String Message)),
       ∀ r ∈ (runIteration gid ft history).1,
         r.message_url = message_url_of gid r.message_id)
    ∧ (∀ (s : String) (mid : Int), pyStartsWith s "http" = false →
        message_url_of (GroupIdent.strId s) mid = "https://t.me/" ++ s ++ "/" ++ toString mid)
    ∧ (∀ (s : String) (mid : Int), pyStartsWith s "http" = true →
        message_url_of (GroupIdent.strId s) mid = toString mid)
    ∧ (∀ (n mid : Int), message_url_of (GroupIdent.intId n) mid = toString mid)
    ∧ message_url_of (GroupIdent.strId "mychannel") 42 = "https://t.me/mychannel/42"
    ∧ message_url_of (GroupIdent.strId "https://t.me/mychannel") 42 = "42" := by
  refine ⟨?_, ?_, ?_, fun n mid => rfl, by decide, by decide⟩
  · intro gid ft history
    induction history with
    | nil => intro r hr; simp [runIteration] at hr
    | cons hd tl ih =>
      cases hd with
      | error e => intro r hr; simp [runIteration] at hr
      | ok m =>
        intro r hr
        rcases hpm : processMessage gid ft m with _ | r0
        · rw [runIteration, hpm] at hr
          exact ih r hr
        · rw [runIteration, hpm] at hr
          simp only [List.mem_cons] at hr
          rcases hr with rfl | hr
          · exact processMessage_url gid ft m r hpm
          · exact ih r hr
  · intro s mid h
    simp [message_url_of, h]
  · intro s mid h
    simp [message_url_of, h]

/-- C5 (witness): the deep-link branch evaluated at `mychannel` / 42. -/
theorem c5_message_url_witness :
    pyStartsWith "mychannel" "http" = false
    ∧ message_url_of (GroupIdent.strId "mychannel") 42
        = "https://t.me/" ++ "mychannel" ++ "/" ++ toString (42 : Int) := by
  exact ⟨by decide, c5_message_url.2.1 "mychannel" 42 (by decide)⟩

/-- C6: an empty Collector makes both exporters warn and write nothing
(and a full driver run with an empty Collector still completes with
nothing reported and the session closed); a nonempty Collector always
produces a file write. -/
theorem c6_empty_export :
    (∀ p : String, export_csv [] p = ExportResult.warnedNoFiles)
    ∧ (∀ p : String, export_json [] p = ExportResult.warnedNoFiles)
    ∧ (∀ (files : List FileRecord) (p : String), files ≠ [] →
        export_csv files p = ExportResult.wrote p files)
    ∧ (∀ (files : List FileRecord) (p : String), files ≠ [] →
        export_json files p = ExportResult.wrote p files)
    ∧ (mainRun envEmptyRun argsEmptyRun).reported = none
    ∧ (mainRun envEmptyRun argsEmptyRun).closeCalled = true
    ∧ (mainRun envEmptyRun argsEmptyRun).uncaught = none := by
  refine ⟨fun p => rfl, fun p => rfl, ?_, ?_, rfl, rfl, rfl⟩
  · intro files p hne
    cases files with
    | nil => exact absurd rfl hne
    | cons a l => rfl
  · intro files p hne
    cases files with
    | nil => exact absurd rfl hne
    | cons a l => rfl

/-- C6 (witness): the nonempty branch evaluated on a one-record
Collector. -/
theorem c6_empty_export_witness :
    ([demoRec6] : List FileRecord) ≠ []
    ∧ export_csv [demoRec6] "out.csv" = ExportResult.wrote "out.csv" [demoRec6] := by
  exact ⟨by simp, c6_empty_export.2.2.1 [demoRec6] "out.csv" (by simp)⟩

/-- C7: the summary's top-10 list holds the records of greatest size (it
and some rest permute the Collector, with every kept record at least as
large as every dropped one), has length `min 10 n`, is sorted descending,
keeps tied records in their original Collector order (its slice at any
fixed size is a prefix of the Collector's slice), and computing the
summary leaves the Collector unchanged. -/
theorem c7_top10_stable (files : List FileRecord) :
    (∃ rest, files.Perm (top10Largest files ++ rest)
      ∧ ∀ x ∈ top10Largest files, ∀ y ∈ rest, y.file_size_mb ≤ x.file_size_mb)
    ∧ (top10Largest files).length = min 10 files.length
    ∧ List.Pairwise (fun a b => b.file_size_mb ≤ a.file_size_mb) (top10Largest files)
    ∧ (∀ v : ℚ, ∃ t,
        (top10Largest files).filter (fun r => decide (r.file_size_mb = v)) ++ t
          = files.filter (fun r => decide (r.file_size_mb = v)))
    ∧ (print_summary files).2 = files := by
  have htrans : ∀ a b c : FileRecord,
      decide (b.file_size_mb ≤ a.file_size_mb) = true →
      decide (c.file_size_mb ≤ b.file_size_mb) = true →
      decide (c.file_size_mb ≤ a.file_size_mb) = true := by
    intro a b c hab hbc
    simp only [decide_eq_true_eq] at hab hbc ⊢
    exact le_trans hbc hab
  have htotal : ∀ a b : FileRecord,
      (decide (b.file_size_mb ≤ a.file_size_mb)
        || decide (a.file_size_mb ≤ b.file_size_mb)) = true := by
    intro a b
    simp only [Bool.or_eq_true, decide_eq_true_eq]
    exact le_total _ _
  have hsorted := List.sorted_mergeSort htrans htotal files
  have hkey : files.mergeSort (fun a b => decide (b.file_size_mb ≤ a.file_size_mb))
      = top10Largest files
        ++ (files.mergeSort (fun a b => decide (b.file_size_mb ≤ a.file_size_mb))).drop 10 := by
    unfold top10Largest
    rw [List.take_append_drop]
  refine ⟨?_, ?_, ?_, ?_, ?_⟩
  · refine ⟨(files.mergeSort (fun a b => decide (b.file_size_mb ≤ a.file_size_mb))).drop 10,
      ?_, ?_⟩
    · have hperm := (List.mergeSort_perm files
        (fun a b => decide (b.file_size_mb ≤ a.file_size_mb))).symm
      rwa [hkey] at hperm
    · intro x hx y hy
      have hpw := hsorted
      rw [hkey, List.pairwise_append] at hpw
      have := hpw.2.2 x hx y hy
      simpa using this
  · simp [top10Largest, List.length_take, List.length_mergeSort]
  · have hsub : (top10Largest files).Sublist
        (files.mergeSort (fun a b => decide (b.file_size_mb ≤ a.file_size_mb))) := by
      unfold top10Largest
      exact List.take_sublist 10 _
    have := List.Pairwise.sublist hsub hsorted
    exact this.imp (by intro a b h; simpa using h)
  · intro v
    have hfl := filter_mergeSort_tied
      (fun a b => decide (b.file_size_mb ≤ a.file_size_mb)) htrans htotal
      (fun r => decide (r.file_size_mb = v))
      (by
        intro x y hx hy
        simp only [decide_eq_true_eq] at hx hy ⊢
        rw [hx, hy])
      files
    refine ⟨((files.mergeSort
        (fun a b => decide (b.file_size_mb ≤ a.file_size_mb))).drop 10).filter
        (fun r => decide (r.file_size_mb = v)), ?_⟩
    rw [← List.filter_append, ← hkey, hfl]
  · by_cases h : files.isEmpty <;> simp [print_summary, h]

/-- C7 (witness): the length and the unchanged-Collector facts evaluated
on a two-record Collector. -/
theorem c7_top10_witness :
    (top10Largest [demoTopA, demoTopB]).length = min 10 2
    ∧ (print_summary [demoTopA, demoTopB]).2 = [demoTopA, demoTopB] := by
  exact ⟨(c7_top10_stable [demoTopA, demoTopB]).2.1,
    (c7_top10_stable [demoTopA, demoTopB]).2.2.2.2⟩

/-- C8 (counterexample): the claim says the JSON report path is the CSV
path with its extension changed to `.json` for every output path, but the
driver computes it by substring replacement of `.csv`, so an output path
without `.csv` is used unchanged. -/
theorem c8_json_path_cex :
    mainJsonPath "report.txt" = "report.txt"
    ∧ ("report.txt" : String) ≠ "report.json" := by
  exact ⟨by decide, by decide⟩

/-- C8 (amended): the JSON path is the CSV output path with every
occurrence of the substring `.csv` replaced by `.json`; in particular,
for an output path of the form `base + ".csv"` where no occurrence of
`.csv` starts inside `base`, it equals `base + ".json"`. -/
theorem c8_json_path_amended :
    ∀ base : String, noMatchIn ".csv".data base.data = true →
      mainJsonPath (base ++ ".csv") = base ++ ".json" := by
  intro base h
  unfold mainJsonPath pyReplace
  rw [show (".csv" : String).data = ['.', 'c', 's', 'v'] from rfl]
  have hdata : (base ++ ".csv").data = base.data ++ ['.', 'c', 's', 'v'] := by
    rw [String.data_append]
  rw [hdata, replaceGo_boundary ['.', 'c', 's', 'v'] (".json" : String).data
    (by simp) base.data h]
  have : (base ++ ".json").data = base.data ++ (".json" : String).data := by
    rw [String.data_append]
  rw [← this]

/-- C8 (witness): the amended path rule evaluated at the default output
path `scraped_files.csv`. -/
theorem c8_json_path_witness :
    noMatchIn ".csv".data "scraped_files".data = true
    ∧ mainJsonPath ("scraped_files" ++ ".csv") = "scraped_files" ++ ".json" := by
  exact ⟨by decide, c8_json_path_amended "scraped_files" (by decide)⟩

/-- C9: with no explicit extension set, the classifier accepts every
filename whose lower-cased form ends with a member of the documented
default list, and rejects every filename whose lower-cased form ends with
the unlisted `.exe`. -/
theorem c9_default_set :
    (∀ (f ext : String), ext ∈ defaultFileTypes →
      pyEndsWith (pyLower f) ext = true → is_target_file (some f) none = true)
    ∧ (∀ f : String, pyEndsWith (pyLower f) ".exe" = true →
      is_target_file (some f) none = false) := by
  constructor
  · intro f ext hmem hsuf
    have hextne : ext ≠ "" := by
      have hall : ∀ e ∈ defaultFileTypes, e ≠ "" := by decide
      exact hall ext hmem
    have hfne : f ≠ "" := by
      intro hf
      rw [pyEndsWith, isSuf_iff] at hsuf
      have hnil : (pyLower f).data = [] := by
        rw [hf]
        rfl
      rw [hnil, List.suffix_nil] at hsuf
      exact hextne ((data_eq_nil_iff ext).mp hsuf)
    simp [is_target_file, hfne, List.any_eq_true]
    exact ⟨ext, hmem, hsuf⟩
  · intro f hexe
    by_cases hf : f = ""
    · simp [is_target_file, hf]
    · simp only [is_target_file, hf]
      simp only [if_false]
      rw [List.any_eq_false]
      intro x hx
      rw [Bool.not_eq_true]
      rw [pyEndsWith] at hexe ⊢
      by_contra hcon
      rw [Bool.not_eq_false] at hcon
      fin_cases hx <;>
        first
        | exact suffix_clash hcon hexe (by decide) (by decide)
        | exact suffix_clash hexe hcon (by decide) (by decide)

/-- C9 (witness): the default set accepts `A.ZIP` via `.zip` and rejects
`virus.exe`. -/
theorem c9_default_set_witness :
    ((".zip" : String) ∈ defaultFileTypes
      ∧ pyEndsWith (pyLower "A.ZIP") ".zip" = true
      ∧ is_target_file (some "A.ZIP") none = true)
    ∧ (pyEndsWith (pyLower "virus.exe") ".exe" = true
      ∧ is_target_file (some "virus.exe") none = false) := by
  exact ⟨⟨by decide, by decide, c9_default_set.1 "A.ZIP" ".zip" (by decide) (by decide)⟩,
    ⟨by decide, c9_default_set.2 "virus.exe" (by decide)⟩⟩

/-- Any allow-list entry carrying an upper-case ASCII letter can never be
a suffix of a lower-cased filename. -/
lemma upper_entry_never_suffix (f ext : String)
    (hup : ext.data.any Char.isUpper = true) : pyEndsWith (pyLower f) ext = false := by
  by_contra hcon
  rw [Bool.not_eq_false, pyEndsWith, isSuf_iff] at hcon
  obtain ⟨t, ht⟩ := hcon
  obtain ⟨c, hc, hcu⟩ := List.any_eq_true.mp hup
  have hmem : c ∈ (pyLower f).data := by
    rw [← ht]
    exact List.mem_append_right t hc
  have : c ∈ f.data.map pyCharLower := hmem
  obtain ⟨d, _, hd⟩ := List.mem_map.mp this
  rw [← hd] at hcu
  rw [pyCharLower_not_upper d] at hcu
  exact Bool.false_ne_true hcu

/-- C10: only the filename is lower-cased before the suffix test, never
the allow-list entries: an entry containing an upper-case letter matches
no filename at all (so the classifier rejects it even as a singleton
allow-list), and an entry is matched as a raw character suffix, so the
dotless entry `"zip"` accepts the filename `"myzip"`. -/
theorem c10_entry_case_sensitivity :
    (∀ f ext : String, ext.data.any Char.isUpper = true →
      pyEndsWith (pyLower f) ext = false)
    ∧ (∀ f ext : String, ext.data.any Char.isUpper = true →
      is_target_file (some f) (some [ext]) = false)
    ∧ is_target_file (some "myzip") (some ["zip"]) = true := by
  refine ⟨upper_entry_never_suffix, ?_, by decide⟩
  intro f ext hup
  by_cases hf : f = ""
  · simp [is_target_file, hf]
  · simp [is_target_file, hf, upper_entry_never_suffix f ext hup]

/-- C10 (witness): the upper-case entry `.ZIP` matches nothing, even the
matching-case filename, while the dotless entry `zip` matches `myzip`. -/
theorem c10_entry_case_witness :
    (".ZIP" : String).data.any Char.isUpper = true
    ∧ pyEndsWith (pyLower "file.zip") ".ZIP" = false
    ∧ is_target_file (some "file.ZIP") (some [".ZIP"]) = false := by
  exact ⟨by decide, c10_entry_case_sensitivity.1 "file.zip" ".ZIP" (by decide),
    c10_entry_case_sensitivity.2.1 "file.ZIP" ".ZIP" (by decide)⟩

end TelegramScraper







